import Mathlib

/-!
Verification development for the trilio-dms repository (Dynamic Mount Service).

The definitions below are a shallow embedding of the Python sources:
  - trilio_dms/models/database.py   (ledger / target / job rows)
  - trilio_dms/services/mount_service.py (MountService.mount / unmount)
  - trilio_dms/drivers/nfs.py       (NFSDriver)
  - trilio_dms/drivers/s3.py        (S3Driver.__init__)
  - trilio_dms/messaging/rabbitmq.py (RabbitMQServer._on_request)
  - trilio_dms/lock_manager.py      (DMSLockManager.acquire_lock)
  - trilio_dms/client.py            (DMSClient.mount lock wrapper)

External effects (SQL database, subprocesses, the kernel mount table) are
modelled by explicit state values and oracle functions describing the outcome
of each effectful call.  SQLAlchemy session semantics are modelled faithfully:
`session.commit()` makes the pending state durable, `session.rollback()`
reverts only the changes made since the last commit.  Timestamp columns
(`created_at`, `updated_at`, `deleted_at`) carry no control-flow weight in the
verified code paths and are omitted from the row models.
-/

/-- Row of `backup_targets` (models/database.py, class BackupTarget).
`secret_ref` is a nullable column checked with Python truthiness, so the
empty string stands for NULL/absent. -/
structure BackupTarget where
  id : String
  deleted : Bool
  type : String
  filesystem_export : String
  filesystem_export_mount_path : String
  status : String
  secret_ref : String
deriving Repr, DecidableEq

/-- Row of `backup_target_mount_ledger` (models/database.py,
class BackupTargetMountLedger).  `id` is the autoincrement surrogate key. -/
structure LedgerEntry where
  id : Nat
  backup_target_id : String
  jobid : Nat
  host : String
  mounted : Bool
  deleted : Bool
deriving Repr, DecidableEq

/-- Row of `job` (models/database.py, class Job); only the columns the
mount service reads. -/
structure Job where
  jobid : Nat
  status : String
  deleted : Bool
deriving Repr, DecidableEq

/-- The relational state the mount service reads and writes. -/
structure DB where
  targets : List BackupTarget
  ledgers : List LedgerEntry
  jobs : List Job
deriving Repr, DecidableEq

/-- `session.query(BackupTarget).filter_by(id=target_id, deleted=False).first()`
(mount_service.py line 48). -/
def findTarget (db : DB) (target_id : String) : Option BackupTarget :=
  db.targets.find? fun t => t.id == target_id && t.deleted == false

/-- `session.query(BackupTarget).filter_by(id=target_id).first()`
(mount_service.py line 153; note: no `deleted` filter). -/
def findTargetById (db : DB) (target_id : String) : Option BackupTarget :=
  db.targets.find? fun t => t.id == target_id

/-- The filter used for the per-job ledger row:
`filter_by(backup_target_id=..., jobid=..., host=..., deleted=False)`. -/
def ledgerRowPred (target_id : String) (job_id : Nat) (host : String)
    (l : LedgerEntry) : Bool :=
  l.backup_target_id == target_id && l.jobid == job_id && l.host == host &&
    l.deleted == false

/-- `session.query(BackupTargetMountLedger).filter_by(...).first()`
(mount_service.py lines 60 and 134). -/
def findLedgerEntry (db : DB) (target_id : String) (job_id : Nat)
    (host : String) : Option LedgerEntry :=
  db.ledgers.find? (ledgerRowPred target_id job_id host)

/-- Fresh autoincrement id for a new ledger row. -/
def nextLedgerId (db : DB) : Nat :=
  db.ledgers.foldl (fun m l => max m (l.id + 1)) 0

/-- `MountService._compute_active_count` (mount_service.py lines 178-195):
collect the non-deleted ledger rows for (target, host); if none, 0; else count
the `job` rows whose jobid appears among them, whose status is STARTING or
RUNNING, and which are not deleted. -/
def computeActiveCount (db : DB) (host target_id : String) : Nat :=
  let entries := db.ledgers.filter fun l =>
    l.backup_target_id == target_id && l.host == host && l.deleted == false
  if entries.isEmpty then 0
  else
    let jobIds := entries.map fun l => l.jobid
    (db.jobs.filter fun j =>
      jobIds.contains j.jobid &&
        (j.status == "STARTING" || j.status == "RUNNING") &&
        j.deleted == false).length

/-- Bulk update of mount_service.py lines 97-101:
`filter_by(backup_target_id, host, deleted=False).update(mounted=True)`
(generalised over the flag value). -/
def setMountedAllActive (db : DB) (target_id host : String) (v : Bool) : DB :=
  { db with ledgers := db.ledgers.map fun l =>
      if l.backup_target_id == target_id && l.host == host && l.deleted == false
      then { l with mounted := v } else l }

/-- Bulk update of mount_service.py lines 159-162:
`filter_by(backup_target_id, host).update(mounted=False)` — note the missing
`deleted` filter: soft-deleted rows are updated too. -/
def setMountedAll (db : DB) (target_id host : String) (v : Bool) : DB :=
  { db with ledgers := db.ledgers.map fun l =>
      if l.backup_target_id == target_id && l.host == host
      then { l with mounted := v } else l }

/-- `ledger.mounted = True` on one ORM object (mount_service.py line 104),
addressed by its surrogate id. -/
def setEntryMounted (db : DB) (entry_id : Nat) (v : Bool) : DB :=
  { db with ledgers := db.ledgers.map fun l =>
      if l.id == entry_id then { l with mounted := v } else l }

/-- `ledger.deleted = True` (mount_service.py line 142), addressed by id. -/
def softDeleteEntry (db : DB) (entry_id : Nat) : DB :=
  { db with ledgers := db.ledgers.map fun l =>
      if l.id == entry_id then { l with deleted := true } else l }

/-- Physical driver operations performed by a request (the mount / unmount
subprocess or child-spawn effect; read-only probes are not listed). -/
inductive DriverCall
  | mountCall (target_id : String)
  | unmountCall (target_id : String)
deriving Repr, DecidableEq

/-- Exceptions raised inside `MountService.mount` / `unmount`
(utils/exceptions.py); the payload is the message `str(e)`. -/
inductive DmsExc
  | mountException (msg : String)
  | unmountException (msg : String)
  | authenticationException (msg : String)
deriving Repr, DecidableEq

/-- `str(e)` of an exception. -/
def excText : DmsExc → String
  | DmsExc.mountException s => s
  | DmsExc.unmountException s => s
  | DmsExc.authenticationException s => s

/-- Outcome oracle for the effectful calls the mount service makes: driver
`is_mounted` by mount path, driver `mount` / `unmount` success by target id,
and Barbican credential retrieval success by secret reference. -/
structure MountEnv where
  is_mounted : String → Bool
  driver_mount_ok : String → Bool
  driver_unmount_ok : String → Bool
  retrieve_ok : String → Bool

/-- `MountService._is_mounted` (mount_service.py lines 197-203): delegate to
the matching driver, `False` for unknown target types. -/
def serviceIsMounted (env : MountEnv) (target : BackupTarget) : Bool :=
  if target.type == "nfs" then env.is_mounted target.filesystem_export_mount_path
  else if target.type == "s3" then env.is_mounted target.filesystem_export_mount_path
  else false

/-- `MountService._perform_mount` (mount_service.py lines 205-259), returning
the raised exception (if any) and the driver calls that were issued.
For nfs the driver mount is always attempted; for s3 the secret_ref /
keystone_token / credential-retrieval checks can fail first (the
AuthenticationException from the secret manager is re-raised as a
MountException, lines 242-244); an unknown type raises without any call.
A `False` driver result raises MountException (lines 258-259). -/
def performMount (env : MountEnv) (target : BackupTarget)
    (keystone_token : String) : Except DmsExc Unit × List DriverCall :=
  if target.type == "nfs" then
    ((if env.driver_mount_ok target.id then Except.ok ()
      else Except.error (DmsExc.mountException ("Failed to mount " ++ target.id))),
     [DriverCall.mountCall target.id])
  else if target.type == "s3" then
    if target.secret_ref == "" then
      (Except.error (DmsExc.mountException
        ("Target " ++ target.id ++ " has no secret_ref configured")), [])
    else if keystone_token == "" then
      (Except.error (DmsExc.mountException
        "keystone_token is required for S3 mount"), [])
    else if !(env.retrieve_ok target.secret_ref) then
      (Except.error (DmsExc.mountException
        "Failed to retrieve S3 credentials"), [])
    else
      ((if env.driver_mount_ok target.id then Except.ok ()
        else Except.error (DmsExc.mountException ("Failed to mount " ++ target.id))),
       [DriverCall.mountCall target.id])
  else
    (Except.error (DmsExc.mountException ("Unknown target type: " ++ target.type)), [])

/-- `MountService._perform_unmount` (mount_service.py lines 261-277): the nfs
and s3 branches both invoke the matching driver unmount; an unknown type
raises UnmountException without a call; a `False` driver result raises. -/
def performUnmount (env : MountEnv) (target : BackupTarget) :
    Except DmsExc Unit × List DriverCall :=
  if target.type == "nfs" || target.type == "s3" then
    ((if env.driver_unmount_ok target.id then Except.ok ()
      else Except.error (DmsExc.unmountException ("Failed to unmount " ++ target.id))),
     [DriverCall.unmountCall target.id])
  else
    (Except.error (DmsExc.unmountException ("Unknown target type: " ++ target.type)), [])

/-- The message of the failure dict built by the `except` clauses of
`MountService.mount` (lines 114-127). -/
def mountFailureMessage : DmsExc → String
  | DmsExc.authenticationException s => "Authentication failed: " ++ s
  | e => excText e

/-- A response dict of the mount service.  Failure dicts carry no
`mount_path` key, modelled as `none`. -/
structure SvcResponse where
  success : Bool
  message : String
  mount_path : Option String
deriving Repr, DecidableEq

/-- Result of one service request: the reply, the durable database state
after `session_scope` exits, and the physical driver calls performed. -/
structure SvcOutcome where
  response : SvcResponse
  db : DB
  calls : List DriverCall
deriving Repr, DecidableEq

/-- The fresh ledger row inserted by `MountService.mount` (lines 76-81). -/
def newLedgerEntry (db : DB) (target_id : String) (job_id : Nat)
    (node_id : String) : LedgerEntry :=
  { id := nextLedgerId db, backup_target_id := target_id, jobid := job_id,
    host := node_id, mounted := false, deleted := false }

/-- The database right after `session.add(ledger); session.commit()`
(mount_service.py lines 82-83) — the insert is durable from here on. -/
def mountInsertedDb (db : DB) (target_id : String) (job_id : Nat)
    (node_id : String) : DB :=
  { db with ledgers := db.ledgers ++ [newLedgerEntry db target_id job_id node_id] }

/-- `MountService.mount` (mount_service.py lines 43-127).  The session starts
from the durable state `db`; commits are marked in comments.  On an exception
the handler rolls back to the last commit and returns a failure dict. -/
def MountService.mount (env : MountEnv) (node_id : String) (db : DB)
    (job_id : Nat) (target_id : String) (keystone_token : String) : SvcOutcome :=
  match findTarget db target_id with
  | none =>
      -- TargetNotFoundException → generic handler: rollback (nothing pending), failure
      { response := { success := false,
                      message := "Target " ++ target_id ++ " not found",
                      mount_path := none },
        db := db, calls := [] }
  | some target =>
      match findLedgerEntry db target_id job_id node_id with
      | some _ =>
          -- lines 67-73: reuse path, early successful return
          { response := { success := true,
                          message := "Mount already exists for job " ++ toString job_id,
                          mount_path := some target.filesystem_export_mount_path },
            db := db, calls := [] }
      | none =>
          let db1 := mountInsertedDb db target_id job_id node_id  -- commit (line 83)
          let active_count := computeActiveCount db1 node_id target_id
          if active_count == 1 && !(serviceIsMounted env target) then
            match performMount env target keystone_token with
            | (Except.ok _, calls) =>
                let db2 := setMountedAllActive db1 target_id node_id true  -- commit (line 102)
                { response := { success := true,
                                message := "Mount ready for job " ++ toString job_id,
                                mount_path := some target.filesystem_export_mount_path },
                  db := db2, calls := calls }
            | (Except.error e, calls) =>
                -- exception: session.rollback() reverts to the commit at line 83,
                -- which already contains the new ledger row
                { response := { success := false,
                                message := mountFailureMessage e,
                                mount_path := none },
                  db := db1, calls := calls }
          else if active_count > 1 then
            let db2 := setEntryMounted db1 (nextLedgerId db) true  -- commit (line 105)
            { response := { success := true,
                            message := "Mount ready for job " ++ toString job_id,
                            mount_path := some target.filesystem_export_mount_path },
              db := db2, calls := [] }
          else
            -- active_count == 0, or == 1 with the driver reporting mounted:
            -- neither branch fires; session_scope commits the unchanged pending state
            { response := { success := true,
                            message := "Mount ready for job " ++ toString job_id,
                            mount_path := some target.filesystem_export_mount_path },
              db := db1, calls := [] }

/-- The database after the soft-delete step of `MountService.unmount`
(lines 134-144): if the per-job row exists it is marked deleted and
committed; otherwise nothing changes. -/
def unmountSoftDeletedDb (db : DB) (node_id : String) (job_id : Nat)
    (target_id : String) : DB :=
  match findLedgerEntry db target_id job_id node_id with
  | some l => softDeleteEntry db l.id
  | none => db

/-- `MountService.unmount` (mount_service.py lines 129-176). -/
def MountService.unmount (env : MountEnv) (node_id : String) (db : DB)
    (job_id : Nat) (target_id : String) : SvcOutcome :=
  let db1 := unmountSoftDeletedDb db node_id job_id target_id  -- commit (line 144) when a row matched
  let active_count := computeActiveCount db1 node_id target_id
  if active_count == 0 then
    match findTargetById db1 target_id with
    | some target =>
        if serviceIsMounted env target then
          match performUnmount env target with
          | (Except.ok _, calls) =>
              let db2 := setMountedAll db1 target_id node_id false  -- commit (line 163)
              { response := { success := true,
                              message := "Unmount processed for job " ++ toString job_id,
                              mount_path := none },
                db := db2, calls := calls }
          | (Except.error e, calls) =>
              -- exception: rollback to the last commit — the soft-delete stays durable
              { response := { success := false, message := excText e,
                              mount_path := none },
                db := db1, calls := calls }
        else
          { response := { success := true,
                          message := "Unmount processed for job " ++ toString job_id,
                          mount_path := none },
            db := db1, calls := [] }
    | none =>
        { response := { success := true,
                        message := "Unmount processed for job " ++ toString job_id,
                        mount_path := none },
          db := db1, calls := [] }
  else
    { response := { success := true,
                    message := "Unmount processed for job " ++ toString job_id,
                    mount_path := none },
      db := db1, calls := [] }

/-! ## drivers/nfs.py -/

/-- Outcome of one `subprocess.run` call: it completed with an exit status,
or raised `subprocess.TimeoutExpired`. -/
inductive CmdResult
  | completed (returncode : Int)
  | timedOut
deriving Repr, DecidableEq

/-- Host-side oracle for the NFS driver: the outcome of each subprocess
invocation (by argv), the parsed lines of `/proc/mounts` (whitespace-split
fields), and filesystem probes. -/
structure OsEnv where
  run : List String → CmdResult
  procMounts : List (List String)
  path_exists : String → Bool
  makedirs_ok : String → Bool
  listdir_ok : String → Bool

/-- The names bound at module level in drivers/nfs.py (lines 1-11): the
imports `os`, `subprocess`, the typing names, the base class, the logger
helpers, the exception classes and `LOG`.  `signal` is not among them. -/
def nfsModuleNames : List String :=
  ["os", "subprocess", "Dict", "Any", "BaseMountDriver", "get_logger",
   "MountException", "UnmountException", "LOG"]

/-- `NFSDriver.is_mounted` (nfs.py lines 141-193).  The `/proc/mounts` scan
keeps lines with at least two fields whose second field is the path.  If no
line matches, return False.  Otherwise the accessibility probe begins with
`signal.signal(signal.SIGALRM, timeout_handler)` (line 170); `signal` is not
bound in the module (`nfsModuleNames`), so evaluating the name raises
NameError, which the enclosing `except Exception` (line 191) turns into
`return False`.  The probe body behind the dead guard is modelled as the
bounded listdir check it would perform. -/
def NFSDriver.is_mounted (env : OsEnv) (mount_path : String) : Bool :=
  let mount_entry_exists := env.procMounts.any fun parts =>
    decide (2 ≤ parts.length) && (parts.getD 1 "" == mount_path)
  if !mount_entry_exists then false
  else if nfsModuleNames.contains "signal" then env.listdir_ok mount_path
  else false

/-- The `except subprocess.TimeoutExpired` handler of `NFSDriver.unmount`
(nfs.py lines 129-136): run `umount -f -l` with its own 5 s timeout and
return True unless that too raises; the exit status is not inspected. -/
def nfsForceLazyLastResort (env : OsEnv) (mount_path : String) : Bool :=
  match env.run ["umount", "-f", "-l", mount_path] with
  | CmdResult.timedOut => false
  | CmdResult.completed _ => true

/-- The escalation part of `NFSDriver.unmount` (nfs.py lines 101-127), i.e.
the code after the `is_mounted` guard: plain `umount`, then `umount -l`, each
judged by exit status; `umount -f -l` is reached only through the
TimeoutExpired handler.  Returns the result and the argv of every umount
command started. -/
def nfsUnmountEscalation (env : OsEnv) (mount_path : String) :
    Bool × List (List String) :=
  match env.run ["umount", mount_path] with
  | CmdResult.timedOut =>
      (nfsForceLazyLastResort env mount_path,
       [["umount", mount_path], ["umount", "-f", "-l", mount_path]])
  | CmdResult.completed rc1 =>
      if rc1 == 0 then (true, [["umount", mount_path]])
      else
        match env.run ["umount", "-l", mount_path] with
        | CmdResult.timedOut =>
            (nfsForceLazyLastResort env mount_path,
             [["umount", mount_path], ["umount", "-l", mount_path],
              ["umount", "-f", "-l", mount_path]])
        | CmdResult.completed rc2 =>
            if rc2 == 0 then
              (true, [["umount", mount_path], ["umount", "-l", mount_path]])
            else
              (false, [["umount", mount_path], ["umount", "-l", mount_path]])

/-- `NFSDriver.unmount` (nfs.py lines 82-139): if `is_mounted` reports False
the method returns True immediately without running any umount command. -/
def NFSDriver.unmount (env : OsEnv) (target_id mount_path : String) :
    Bool × List (List String) :=
  if !(NFSDriver.is_mounted env mount_path) then (true, [])
  else nfsUnmountEscalation env mount_path

/-- `NFSDriver.cleanup_stale_mount` (nfs.py lines 195-244): `umount -l`, then
`umount -f -l`, each judged by exit status; a TimeoutExpired ends in False. -/
def NFSDriver.cleanup_stale_mount (env : OsEnv) (mount_path : String) : Bool :=
  match env.run ["umount", "-l", mount_path] with
  | CmdResult.timedOut => false
  | CmdResult.completed rc1 =>
      if rc1 == 0 then true
      else
        match env.run ["umount", "-f", "-l", mount_path] with
        | CmdResult.timedOut => false
        | CmdResult.completed rc2 => rc2 == 0

/-- The mount-command phase of `NFSDriver.mount` (nfs.py lines 52-73):
run `mount -t nfs -o <options> <share> <path>`; TimeoutExpired or a non-zero
exit fails; on exit 0 the result is the `is_mounted` verification. -/
def nfsMountCommandPhase (env : OsEnv) (share mount_path options : String) : Bool :=
  match env.run ["mount", "-t", "nfs", "-o", options, share, mount_path] with
  | CmdResult.timedOut => false
  | CmdResult.completed rc =>
      if rc != 0 then false
      else NFSDriver.is_mounted env mount_path

/-- `NFSDriver.mount` (nfs.py lines 17-80).  A failing `os.makedirs` raises
into the `except Exception` handler (False).  The already-mounted branch
(lines 39-50) checks accessibility and, when stale, requires a successful
cleanup before falling through to the mount command. -/
def NFSDriver.mount (env : OsEnv) (target_id mount_path share options : String) :
    Bool :=
  if !(env.path_exists mount_path) && !(env.makedirs_ok mount_path) then false
  else if NFSDriver.is_mounted env mount_path then
    (if env.listdir_ok mount_path then true
     else if NFSDriver.cleanup_stale_mount env mount_path then
       nfsMountCommandPhase env share mount_path options
     else false)
  else nfsMountCommandPhase env share mount_path options

/-! ## drivers/s3.py (constructor), services __init__ chains -/

/-- The names bound at module level in drivers/s3.py (lines 1-11):
`os`, `subprocess`, `logging`, `time`, the typing names and `LOG`.
`threading` is not among them. -/
def s3ModuleNames : List String :=
  ["os", "subprocess", "logging", "time", "Dict", "Optional", "LOG"]

/-- The configuration dict handed to `S3Driver.__init__`; a `none` field
stands for an absent key (`config.get` then yields the default). -/
structure S3Config where
  s3vaultfuse_path : Option String
  default_log_config : Option String
  default_data_directory : Option String
  pidfile_dir : Option String
deriving Repr, DecidableEq

/-- The attribute state `S3Driver.__init__` would build before line 78. -/
structure S3DriverState where
  s3vaultfuse_path : String
  default_log_config : String
  default_data_directory_base : String
  pidfile_dir : Option String
deriving Repr, DecidableEq

/-- `S3Driver.__init__` (s3.py lines 41-80).  After the attribute
assignments and the guarded `os.makedirs` of the PID directory (whose
failure only clears `pidfile_dir`), line 78 evaluates
`threading.Thread(target=self._reap_zombies, daemon=True)`; `threading` is
not bound in the module (`s3ModuleNames`), so the name lookup raises
NameError, and `__init__` has no handler for it: construction fails for
every configuration. -/
def S3Driver.init (makedirsOk : Bool) (config : S3Config) :
    Except String S3DriverState :=
  let pidDirCfg := config.pidfile_dir.getD "/run/dms/s3"
  let st : S3DriverState :=
    { s3vaultfuse_path := config.s3vaultfuse_path.getD "/usr/bin/s3vaultfuse.py",
      default_log_config :=
        config.default_log_config.getD
          "/etc/triliovault-object-store/object_store_logging.conf",
      default_data_directory_base :=
        config.default_data_directory.getD "/var/lib/trilio/triliovault-mounts",
      pidfile_dir := if pidDirCfg != "" && !makedirsOk then none else some pidDirCfg }
  if s3ModuleNames.contains "threading" then Except.ok st
  else Except.error "NameError: name threading is not defined"

/-- The fields of `DMSConfig` the service constructors read; `none` models a
missing attribute (`hasattr` False). -/
structure DMSConfigModel where
  node_id : String
  s3_vaultfuse_path : Option String
  s3_log_config : Option String
  s3_data_directory : Option String
  s3_pidfile_dir : Option String
  verify_ssl : Option Bool

/-- `MountService.__init__` (mount_service.py lines 24-41): builds the
NFS driver (trivial), then the s3_config dict (all four keys present, from
the config attribute or its fallback literal) and constructs `S3Driver`;
the NameError from `S3Driver.__init__` propagates out. -/
def MountService.init (makedirsOk : Bool) (config : DMSConfigModel) :
    Except String Unit :=
  let s3_config : S3Config :=
    { s3vaultfuse_path := some (config.s3_vaultfuse_path.getD "/usr/bin/s3vaultfuse.py"),
      default_log_config :=
        some (config.s3_log_config.getD
          "/etc/triliovault-object-store/object_store_logging.conf"),
      default_data_directory :=
        some (config.s3_data_directory.getD "/var/lib/trilio/triliovault-mounts"),
      pidfile_dir := some (config.s3_pidfile_dir.getD "/run/dms/s3") }
  match S3Driver.init makedirsOk s3_config with
  | Except.error e => Except.error e
  | Except.ok _ => Except.ok ()  -- then the SecretManager assignment (line 41)

/-- `ReconciliationService.__init__` (reconciliation.py lines 17-29): same
shape, but its s3_config dict carries no `pidfile_dir` key. -/
def ReconciliationService.init (makedirsOk : Bool) (config : DMSConfigModel) :
    Except String Unit :=
  let s3_config : S3Config :=
    { s3vaultfuse_path := some (config.s3_vaultfuse_path.getD "/usr/bin/s3vaultfuse.py"),
      default_log_config :=
        some (config.s3_log_config.getD
          "/etc/triliovault-object-store/object_store_logging.conf"),
      default_data_directory :=
        some (config.s3_data_directory.getD "/var/lib/trilio/triliovault-mounts"),
      pidfile_dir := none }
  match S3Driver.init makedirsOk s3_config with
  | Except.error e => Except.error e
  | Except.ok _ => Except.ok ()

/-! ## messaging/rabbitmq.py (_on_request) -/

/-- AMQP delivery properties read by `_on_request`. -/
structure AmqpProps where
  reply_to : Option String
  correlation_id : Option String
deriving Repr, DecidableEq

/-- A decoded request body; `node_id` may be absent (`request.get` yields
None). -/
structure DmsRequest where
  node_id : Option String
  op : Option String
  job_id : Option Nat
  target_id : Option String
deriving Repr, DecidableEq

/-- How the delivery is acknowledged. -/
inductive AckKind
  | acked
  | nacked (requeue : Bool)
deriving Repr, DecidableEq

/-- The structured error dict built in the node-mismatch branch
(rabbitmq.py lines 133-138). -/
structure NodeMismatchReply where
  success : Bool
  message : String
  server_node_id : String
  request_node_id : Option String
deriving Repr, DecidableEq

/-- What `basic_publish` sends back: the handler reply (with
`server_node_id` attached, line 157) or the mismatch error dict. -/
inductive PublishedBody
  | handlerReply (resp : SvcResponse) (server_node_id : String)
  | nodeMismatchError (e : NodeMismatchReply)
deriving Repr, DecidableEq

/-- Everything `_on_request` did with one delivery. -/
structure DispatchOutcome where
  handlerInvoked : Bool
  db : DB
  calls : List DriverCall
  published : Option (String × PublishedBody)
  ack : AckKind
deriving Repr, DecidableEq

/-- Render an `Option String` the way a Python f-string renders the value. -/
def pyStr : Option String → String
  | none => "None"
  | some s => s

/-- `RabbitMQServer._on_request` (rabbitmq.py lines 121-169) for a
well-formed JSON body.  If `request.get(node_id)` differs from the server
node, the handler is not invoked, a structured error is published exactly
when `reply_to` is present, and the delivery is negatively acknowledged
without requeue (lines 128-151).  Otherwise the handler runs, its reply is
published when `reply_to` is present, and the delivery is acked.  (The
Python message quotes the two node names; the quoting characters are left
out of the modelled text.) -/
def RabbitMQServer.on_request (server_node_id : String)
    (handler : DmsRequest → DB → SvcResponse × DB × List DriverCall)
    (db : DB) (req : DmsRequest) (props : AmqpProps) : DispatchOutcome :=
  if req.node_id != some server_node_id then
    let error_msg := "Node mismatch: request for node " ++ pyStr req.node_id ++
      " received by node " ++ server_node_id
    let response : NodeMismatchReply :=
      { success := false, message := error_msg,
        server_node_id := server_node_id, request_node_id := req.node_id }
    { handlerInvoked := false, db := db, calls := [],
      published := props.reply_to.map fun rk =>
        (rk, PublishedBody.nodeMismatchError response),
      ack := AckKind.nacked false }
  else
    let result := handler req db
    { handlerInvoked := true, db := result.2.1, calls := result.2.2,
      published := props.reply_to.map fun rk =>
        (rk, PublishedBody.handlerReply result.1 server_node_id),
      ack := AckKind.acked }

/-! ## lock_manager.py and the client lock wrapper (client.py) -/

/-- `DMSLockManager.LOCK_TIMEOUT` (lock_manager.py line 25). -/
def DMSLockManager.LOCK_TIMEOUT : Nat := 300

/-- `lock_timeout or 300` (client.py line 77): Python `or` replaces every
falsy value — absent or zero — by the default. -/
def clientLockTimeout : Option Nat → Nat
  | none => 300
  | some 0 => 300
  | some t => t

/-- Result of the polling loop in `acquire_lock`. -/
inductive AcquireOutcome
  | acquired (attempt : Nat)
  | timedOutErr
deriving Repr, DecidableEq

/-- The polling loop of `DMSLockManager.acquire_lock` (lock_manager.py
lines 71-96), with time quantised at the 0.1 s sleep between attempts:
attempt `i` happens at elapsed time `i` tenths of a second.  A non-blocking
flock attempt that succeeds ends the loop; after a failed attempt, if the
elapsed time has reached the timeout (`timeout10` tenths = `timeout`
seconds), TimeoutError is raised; otherwise sleep 0.1 s and retry. -/
def acquireLockLoop (avail : Nat → Bool) (timeout10 : Nat) (i : Nat) :
    AcquireOutcome :=
  if avail i then AcquireOutcome.acquired i
  else if timeout10 ≤ i then AcquireOutcome.timedOutErr
  else acquireLockLoop avail timeout10 (i + 1)
termination_by timeout10 - i
decreasing_by omega

/-- A `create_response` dict (utils.py lines 56-73). -/
structure ClientResponse where
  status : String
  error_msg : Option String
  success_msg : Option String
deriving Repr, DecidableEq

/-- `create_response(status, error_msg, success_msg)`. -/
def create_response (status : String) (error_msg : Option String)
    (success_msg : Option String) : ClientResponse :=
  { status := status, error_msg := error_msg, success_msg := success_msg }

/-- What one client operation did: the returned dict, the database state it
left, the driver calls its node-side work caused, and whether the file lock
is still held when the call returns. -/
structure ClientOutcome where
  response : ClientResponse
  db : DB
  calls : List DriverCall
  lockHeld : Bool
deriving Repr, DecidableEq

/-- The text of the TimeoutError raised at lock_manager.py lines 86-89. -/
def lockTimeoutText (timeoutSec : Nat) : String :=
  "Could not acquire lock for mount_unmount after " ++ toString timeoutSec ++
    " seconds"

/-- `DMSClient.mount` / `DMSClient.unmount` (client.py lines 124-142): run
the body under `acquire_lock`; a TimeoutError from acquisition is caught and
turned into `create_response(error, Could not acquire lock: ...)` — the body
(`_execute_mount_request` / `_execute_unmount_request`, abstracted here as
`execute`) never runs in that case, and the `finally` of `acquire_lock`
releases the flock only when it was acquired, so no lock is left held. -/
def DMSClient.lockedOp (avail : Nat → Bool) (timeoutSec : Nat)
    (execute : DB → ClientResponse × DB × List DriverCall) (db : DB) :
    ClientOutcome :=
  match acquireLockLoop avail (10 * timeoutSec) 0 with
  | AcquireOutcome.timedOutErr =>
      { response := create_response "error"
          (some ("Could not acquire lock: " ++ lockTimeoutText timeoutSec)) none,
        db := db, calls := [], lockHeld := false }
  | AcquireOutcome.acquired _ =>
      let result := execute db
      { response := result.1, db := result.2.1, calls := result.2.2,
        lockHeld := false }

/-! ## Helper lemmas about the ledger queries -/

/-- `findTarget` only reads the `targets` table. -/
theorem findTarget_congr {db1 db2 : DB} (h : db1.targets = db2.targets)
    (target_id : String) : findTarget db1 target_id = findTarget db2 target_id := by
  unfold findTarget
  rw [h]

/-- A bulk update that only rewrites the `mounted` flag commutes with the
per-job row lookup. -/
theorem findLedgerEntry_mapMounted (db : DB) (g : LedgerEntry → Bool)
    (v : Bool) (a : String) (b : Nat) (c : String) :
    findLedgerEntry
        { db with ledgers := db.ledgers.map (fun l =>
            if g l then { l with mounted := v } else l) } a b c
      = (findLedgerEntry db a b c).map (fun l =>
          if g l then { l with mounted := v } else l) := by
  unfold findLedgerEntry
  have hcomp : (ledgerRowPred a b c ∘ fun l =>
      if g l then { l with mounted := v } else l) = ledgerRowPred a b c := by
    funext l
    by_cases hg : g l <;> simp [hg, ledgerRowPred]
  simp only [List.find?_map, hcomp]

theorem findLedgerEntry_setMountedAllActive (db : DB) (tid host : String)
    (v : Bool) (a : String) (b : Nat) (c : String) :
    findLedgerEntry (setMountedAllActive db tid host v) a b c
      = (findLedgerEntry db a b c).map (fun l =>
          if l.backup_target_id == tid && l.host == host && l.deleted == false
          then { l with mounted := v } else l) := by
  unfold setMountedAllActive
  exact findLedgerEntry_mapMounted db _ v a b c

theorem findLedgerEntry_setEntryMounted (db : DB) (eid : Nat) (v : Bool)
    (a : String) (b : Nat) (c : String) :
    findLedgerEntry (setEntryMounted db eid v) a b c
      = (findLedgerEntry db a b c).map (fun l =>
          if l.id == eid then { l with mounted := v } else l) := by
  unfold setEntryMounted
  exact findLedgerEntry_mapMounted db _ v a b c

/-- If no row for `(job, target, node)` existed, the insert performed by
`mount` is the row the per-job lookup finds afterwards. -/
theorem findLedgerEntry_mountInsertedDb (db : DB) (tid : String) (jid : Nat)
    (node : String) (h : findLedgerEntry db tid jid node = none) :
    findLedgerEntry (mountInsertedDb db tid jid node) tid jid node
      = some (newLedgerEntry db tid jid node) := by
  unfold findLedgerEntry at h ⊢
  unfold mountInsertedDb
  simp [List.find?_append, h, ledgerRowPred, newLedgerEntry]

/-- `mount` never touches the `backup_targets` table. -/
theorem mount_targets_eq (env : MountEnv) (node_id : String) (db : DB)
    (job_id : Nat) (target_id keystone_token : String) :
    (MountService.mount env node_id db job_id target_id keystone_token).db.targets
      = db.targets := by
  unfold MountService.mount
  cases hT : findTarget db target_id with
  | none => rfl
  | some t =>
      cases hL : findLedgerEntry db target_id job_id node_id with
      | some e => rfl
      | none =>
          simp only []
          split
          · rcases hpm : performMount env t keystone_token with ⟨pr, cs⟩
            cases pr <;>
              simp [hpm, setMountedAllActive, mountInsertedDb]
          · split <;> simp [setEntryMounted, mountInsertedDb]

/-- `_perform_mount` issues at most one driver call. -/
theorem performMount_calls_le_one (env : MountEnv) (t : BackupTarget)
    (tok : String) : (performMount env t tok).2.length ≤ 1 := by
  unfold performMount
  repeat' split
  all_goals simp

/-- `mount` issues at most one driver call. -/
theorem mount_calls_le_one (env : MountEnv) (node_id : String) (db : DB)
    (job_id : Nat) (target_id keystone_token : String) :
    (MountService.mount env node_id db job_id target_id keystone_token).calls.length ≤ 1 := by
  unfold MountService.mount
  cases hT : findTarget db target_id with
  | none => simp
  | some t =>
      cases hL : findLedgerEntry db target_id job_id node_id with
      | some e => simp
      | none =>
          simp only []
          split
          · rcases hpm : performMount env t keystone_token with ⟨pr, cs⟩
            have hlen : cs.length ≤ 1 := by
              have := performMount_calls_le_one env t keystone_token
              rw [hpm] at this
              exact this
            cases pr <;> simp [hpm, hlen]
          · split <;> simp

/-- After a successful-path `mount` for an existing target, a row for
`(job, target, node)` is always present and non-deleted. -/
theorem mount_leaves_row (env : MountEnv) (node_id : String) (db : DB)
    (job_id : Nat) (target_id keystone_token : String) (t : BackupTarget)
    (ht : findTarget db target_id = some t) :
    ∃ e, findLedgerEntry
        (MountService.mount env node_id db job_id target_id keystone_token).db
        target_id job_id node_id = some e := by
  unfold MountService.mount
  rw [ht]
  cases hL : findLedgerEntry db target_id job_id node_id with
  | some e => exact ⟨e, hL⟩
  | none =>
      have hins := findLedgerEntry_mountInsertedDb db target_id job_id node_id hL
      simp only []
      split
      · rcases hpm : performMount env t keystone_token with ⟨pr, cs⟩
        cases pr with
        | ok u =>
            simp only [hpm]
            rw [findLedgerEntry_setMountedAllActive, hins]
            exact ⟨_, rfl⟩
        | error e =>
            simp only [hpm]
            exact ⟨_, hins⟩
      · split
        · rw [findLedgerEntry_setEntryMounted, hins]
          exact ⟨_, rfl⟩
        · exact ⟨_, hins⟩

/-! ## Concrete fixtures for counterexamples and witnesses -/

/-- An available NFS target. -/
def tgt1 : BackupTarget :=
  { id := "t1", deleted := false, type := "nfs", filesystem_export := "srv:/x",
    filesystem_export_mount_path := "/mnt/t1", status := "available",
    secret_ref := "" }

/-- Target `t1`, job 1 RUNNING, empty ledger. -/
def dbOneJob : DB :=
  { targets := [tgt1], ledgers := [],
    jobs := [{ jobid := 1, status := "RUNNING", deleted := false }] }

/-- Target `t1`, a non-deleted mounted row for job 1 on node1, job 1 RUNNING. -/
def dbOneEntry : DB :=
  { targets := [tgt1],
    ledgers := [{ id := 1, backup_target_id := "t1", jobid := 1,
                  host := "node1", mounted := true, deleted := false }],
    jobs := [{ jobid := 1, status := "RUNNING", deleted := false }] }

/-- Target `t1`, a non-deleted mounted row for the finished job 7 on node1. -/
def dbDoneJob : DB :=
  { targets := [tgt1],
    ledgers := [{ id := 1, backup_target_id := "t1", jobid := 7,
                  host := "node1", mounted := true, deleted := false }],
    jobs := [{ jobid := 7, status := "DONE", deleted := false }] }

/-- Driver oracle: nothing mounted, driver mount fails. -/
def envDrvFail : MountEnv :=
  { is_mounted := fun _ => false, driver_mount_ok := fun _ => false,
    driver_unmount_ok := fun _ => false, retrieve_ok := fun _ => true }

/-- Driver oracle: nothing mounted, every driver call succeeds. -/
def envDrvOk : MountEnv :=
  { is_mounted := fun _ => false, driver_mount_ok := fun _ => true,
    driver_unmount_ok := fun _ => true, retrieve_ok := fun _ => true }

/-- Driver oracle: everything reported mounted, every driver call succeeds. -/
def envMounted : MountEnv :=
  { is_mounted := fun _ => true, driver_mount_ok := fun _ => true,
    driver_unmount_ok := fun _ => true, retrieve_ok := fun _ => true }

/-- Driver oracle: everything reported mounted, driver unmount fails. -/
def envMountedUnmountFail : MountEnv :=
  { is_mounted := fun _ => true, driver_mount_ok := fun _ => true,
    driver_unmount_ok := fun _ => false, retrieve_ok := fun _ => true }

/-- Host oracle for the NFS driver: `/mnt/t1` is listed in `/proc/mounts`;
plain and lazy umount exit 1; force-lazy umount exits 0. -/
def nfsCexEnv : OsEnv :=
  { run := fun cmd =>
      if cmd == ["umount", "/mnt/t1"] then CmdResult.completed 1
      else if cmd == ["umount", "-l", "/mnt/t1"] then CmdResult.completed 1
      else CmdResult.completed 0,
    procMounts := [["srv:/x", "/mnt/t1", "nfs", "rw", "0", "0"]],
    path_exists := fun _ => true, makedirs_ok := fun _ => true,
    listdir_ok := fun _ => true }

/-! ## Claim theorems -/

/-- C4: for every environment and every mount_path, `NFSDriver.is_mounted`
returns False — when the path is absent from /proc/mounts directly, and when
it is present because the accessibility probe references the unimported name
`signal`, whose NameError the enclosing handler turns into False.
Consequently `NFSDriver.mount` can never verify a mount (it always returns
False) and `NFSDriver.unmount` never invokes umount (it returns True with no
command started). -/
theorem nfs_is_mounted_always_false :
    ∀ (env : OsEnv) (target_id mount_path share options : String),
      NFSDriver.is_mounted env mount_path = false ∧
      NFSDriver.unmount env target_id mount_path = (true, []) ∧
      NFSDriver.mount env target_id mount_path share options = false := by
  intro env target_id mount_path share options
  have hsig : nfsModuleNames.contains "signal" = false := by decide
  have h : NFSDriver.is_mounted env mount_path = false := by
    unfold NFSDriver.is_mounted
    rw [hsig]
    simp
  refine ⟨h, ?_, ?_⟩
  · unfold NFSDriver.unmount
    rw [h]
    rfl
  · have hphase : nfsMountCommandPhase env share mount_path options = false := by
      unfold nfsMountCommandPhase
      cases henv : env.run ["mount", "-t", "nfs", "-o", options, share, mount_path] with
      | timedOut => rfl
      | completed rc =>
          by_cases hrc : rc != 0
          · simp [hrc]
          · simp [hrc, h]
    unfold NFSDriver.mount
    rw [h]
    split
    · rfl
    · simp [hphase]

/-- C5: for every configuration, `S3Driver.__init__` reaches the
`threading.Thread(...)` expression with `threading` unbound and raises an
uncaught NameError; therefore `MountService.__init__` and
`ReconciliationService.__init__`, which construct an `S3Driver`, also raise
for every configuration. -/
theorem s3driver_constructor_always_raises :
    ∀ (makedirsOk : Bool) (scfg : S3Config) (cfg : DMSConfigModel),
      S3Driver.init makedirsOk scfg =
        Except.error "NameError: name threading is not defined" ∧
      MountService.init makedirsOk cfg =
        Except.error "NameError: name threading is not defined" ∧
      ReconciliationService.init makedirsOk cfg =
        Except.error "NameError: name threading is not defined" := by
  intro makedirsOk scfg cfg
  have hthr : s3ModuleNames.contains "threading" = false := by decide
  have h : ∀ c : S3Config, S3Driver.init makedirsOk c =
      Except.error "NameError: name threading is not defined" := by
    intro c
    unfold S3Driver.init
    rw [hthr]
    simp
  refine ⟨h scfg, ?_, ?_⟩
  · unfold MountService.init
    simp [h]
  · unfold ReconciliationService.init
    simp [h]

/-- C8: a message whose node_id differs from the dispatcher node leaves the
database untouched, causes no driver call, never invokes the handler,
publishes a structured error exactly when reply_to is present, and is
negatively acknowledged without requeue. -/
theorem node_mismatch_rejected (server_node_id : String)
    (handler : DmsRequest → DB → SvcResponse × DB × List DriverCall)
    (db : DB) (req : DmsRequest) (props : AmqpProps)
    (h : req.node_id ≠ some server_node_id) :
    RabbitMQServer.on_request server_node_id handler db req props =
      { handlerInvoked := false, db := db, calls := [],
        published := props.reply_to.map fun rk =>
          (rk, PublishedBody.nodeMismatchError
            { success := false,
              message := "Node mismatch: request for node " ++ pyStr req.node_id ++
                " received by node " ++ server_node_id,
              server_node_id := server_node_id,
              request_node_id := req.node_id }),
        ack := AckKind.nacked false } := by
  unfold RabbitMQServer.on_request
  have hb : (req.node_id != some server_node_id) = true := by
    simp [bne_iff_ne, h]
  rw [hb]
  rfl

/-- Witness for C8: a concrete mismatched message with a reply queue. -/
theorem node_mismatch_rejected_witness :
    RabbitMQServer.on_request "node1"
        (fun _ db => ({ success := true, message := "ok", mount_path := none }, db, []))
        dbOneJob
        { node_id := some "node2", op := some "mount", job_id := some 1,
          target_id := some "t1" }
        { reply_to := some "amq.gen-reply", correlation_id := some "c1" } =
      { handlerInvoked := false, db := dbOneJob, calls := [],
        published := some ("amq.gen-reply", PublishedBody.nodeMismatchError
          { success := false,
            message := "Node mismatch: request for node node2 received by node node1",
            server_node_id := "node1",
            request_node_id := some "node2" }),
        ack := AckKind.nacked false } :=
  node_mismatch_rejected "node1" _ dbOneJob _ _ (by decide)

/-- The polling loop polls the instants from its start up to the timeout
bound (inclusive) and times out exactly when the lock is unavailable at all
of them. -/
theorem acquireLockLoop_timedOut_iff_aux (avail : Nat → Bool) (timeout10 : Nat) :
    ∀ (n j : Nat), timeout10 - j = n → j ≤ timeout10 →
      (acquireLockLoop avail timeout10 j = AcquireOutcome.timedOutErr ↔
        ∀ i, j ≤ i → i ≤ timeout10 → avail i = false) := by
  intro n
  induction n with
  | zero =>
      intro j hn hj
      have hje : j = timeout10 := by omega
      subst hje
      rw [acquireLockLoop]
      by_cases ha : avail j = true
      · simp only [ha, if_true]
        constructor
        · intro hcontra
          cases hcontra
        · intro hall
          have := hall j (Nat.le_refl j) (Nat.le_refl j)
          rw [ha] at this
          cases this
      · have ha0 : avail j = false := by
          cases hv : avail j
          · rfl
          · exact absurd hv ha
        simp only [ha0, Bool.false_eq_true, if_false, Nat.le_refl, if_true]
        constructor
        · intro _ i h1 h2
          have : i = j := Nat.le_antisymm h2 h1
          rw [this, ha0]
        · intro _
          trivial
  | succ n ih =>
      intro j hn hj
      have hjlt : j < timeout10 := by omega
      rw [acquireLockLoop]
      by_cases ha : avail j = true
      · simp only [ha, if_true]
        constructor
        · intro hcontra
          cases hcontra
        · intro hall
          have := hall j (Nat.le_refl j) hj
          rw [ha] at this
          cases this
      · have ha0 : avail j = false := by
          cases hv : avail j
          · rfl
          · exact absurd hv ha
        have hnle : ¬ (timeout10 ≤ j) := by omega
        simp only [ha0, Bool.false_eq_true, if_false, hnle]
        rw [ih (j + 1) (by omega) (by omega)]
        constructor
        · intro hall i h1 h2
          rcases Nat.eq_or_lt_of_le h1 with he | hlt
          · rw [← he, ha0]
          · exact hall i hlt h2
        · intro hall i h1 h2
          exact hall i (by omega) h2

/-- C10: the serializer default timeout is 300 s (also after the client's
`or 300` defaulting); the acquisition loop polls only the instants within
the configured timeout (quantised at the 0.1 s sleep) and raises
TimeoutError exactly when the lock never became available within them; and
when acquisition times out the client operation returns the lock-error
response while the database is untouched, no driver call happens, and the
lock is not held. -/
theorem serializer_timeout_behavior :
    DMSLockManager.LOCK_TIMEOUT = 300 ∧
    clientLockTimeout none = 300 ∧
    (∀ (avail : Nat → Bool) (timeout10 : Nat),
        acquireLockLoop avail timeout10 0 = AcquireOutcome.timedOutErr ↔
          ∀ i, i ≤ timeout10 → avail i = false) ∧
    (∀ (avail : Nat → Bool) (timeoutSec : Nat)
        (execute : DB → ClientResponse × DB × List DriverCall) (db : DB),
        acquireLockLoop avail (10 * timeoutSec) 0 = AcquireOutcome.timedOutErr →
        DMSClient.lockedOp avail timeoutSec execute db =
          { response := create_response "error"
              (some ("Could not acquire lock: " ++ lockTimeoutText timeoutSec)) none,
            db := db, calls := [], lockHeld := false }) := by
  refine ⟨rfl, rfl, ?_, ?_⟩
  · intro avail timeout10
    rw [acquireLockLoop_timedOut_iff_aux avail timeout10 (timeout10 - 0) 0 rfl
      (Nat.zero_le _)]
    constructor
    · intro hall i h2
      exact hall i (Nat.zero_le i) h2
    · intro hall i _ h2
      exact hall i h2
  · intro avail timeoutSec execute db htimeout
    unfold DMSClient.lockedOp
    rw [htimeout]

/-- Witness for C10: with the lock never available and a 1 s timeout, the
client mount returns the lock error and leaves everything untouched. -/
theorem serializer_timeout_behavior_witness :
    DMSClient.lockedOp (fun _ => false) 1
        (fun db => (create_response "success" none none, db, [])) dbOneJob =
      { response := create_response "error"
          (some ("Could not acquire lock: " ++ lockTimeoutText 1)) none,
        db := dbOneJob, calls := [], lockHeld := false } :=
  serializer_timeout_behavior.2.2.2 (fun _ => false) 1
    (fun db => (create_response "success" none none, db, []))
    dbOneJob (by simp [acquireLockLoop])

/-- C1 counterexample: target `t1` exists, job 1 is RUNNING, the ledger is
empty, the driver mount fails.  `MountService.mount` returns a failure, yet
a non-deleted ledger row for (job 1, t1, node1) remains in the final
database state — the insert was committed before the driver call so the
rollback discarded nothing. -/
theorem mount_failure_row_remains_cex :
    (MountService.mount envDrvFail "node1" dbOneJob 1 "t1" "tok").response.success
        = false ∧
    findLedgerEntry (MountService.mount envDrvFail "node1" dbOneJob 1 "t1" "tok").db
        "t1" 1 "node1" =
      some { id := 0, backup_target_id := "t1", jobid := 1, host := "node1",
             mounted := false, deleted := false } := by
  exact ⟨rfl, rfl⟩

/-- C1 amended: when the driver Mount call fails, `MountService.mount`
returns a failure result, but the newly created ledger entry was committed
before the driver call, so the rollback does not discard it: the final
database is exactly the post-insert state, and a non-deleted row for
(jobID, targetID, node) remains. -/
theorem mount_failure_row_persists (env : MountEnv) (node_id : String)
    (db : DB) (job_id : Nat) (target_id keystone_token : String)
    (t : BackupTarget) (ex : DmsExc) (cs : List DriverCall)
    (ht : findTarget db target_id = some t)
    (hnone : findLedgerEntry db target_id job_id node_id = none)
    (hcnt : computeActiveCount (mountInsertedDb db target_id job_id node_id)
        node_id target_id = 1)
    (hmnt : serviceIsMounted env t = false)
    (hpm : performMount env t keystone_token = (Except.error ex, cs)) :
    (MountService.mount env node_id db job_id target_id keystone_token).response.success
        = false ∧
    (MountService.mount env node_id db job_id target_id keystone_token).db
        = mountInsertedDb db target_id job_id node_id ∧
    findLedgerEntry
        (MountService.mount env node_id db job_id target_id keystone_token).db
        target_id job_id node_id =
      some (newLedgerEntry db target_id job_id node_id) := by
  have hbranch :
      MountService.mount env node_id db job_id target_id keystone_token =
        { response := { success := false, message := mountFailureMessage ex,
                        mount_path := none },
          db := mountInsertedDb db target_id job_id node_id, calls := cs } := by
    unfold MountService.mount
    rw [ht, hnone]
    simp only [hcnt, hmnt, Bool.not_false, Bool.and_true, beq_self_eq_true,
      if_true, hpm]
  rw [hbranch]
  exact ⟨rfl, rfl, findLedgerEntry_mountInsertedDb db target_id job_id node_id hnone⟩

/-- Witness for the amended C1 at the concrete counterexample input. -/
theorem mount_failure_row_persists_witness :
    (MountService.mount envDrvFail "node1" dbOneJob 1 "t1" "tok").response.success
        = false ∧
    (MountService.mount envDrvFail "node1" dbOneJob 1 "t1" "tok").db
        = mountInsertedDb dbOneJob "t1" 1 "node1" ∧
    findLedgerEntry (MountService.mount envDrvFail "node1" dbOneJob 1 "t1" "tok").db
        "t1" 1 "node1" = some (newLedgerEntry dbOneJob "t1" 1 "node1") :=
  mount_failure_row_persists envDrvFail "node1" dbOneJob 1 "t1" "tok" tgt1
    (DmsExc.mountException "Failed to mount t1") [DriverCall.mountCall "t1"]
    rfl rfl rfl rfl rfl

/-- C3 counterexample: one non-deleted mounted row for (job 1, t1, node1),
job 1 RUNNING, the driver reports the target mounted and its Unmount call
fails.  `MountService.unmount` returns a failure, yet the row stays
soft-deleted: no non-deleted row for (1, t1, node1) exists afterwards and
the stored row carries deleted = true — the soft-delete was committed before
the driver call, so the rollback restored nothing. -/
theorem unmount_failure_softdelete_cex :
    (MountService.unmount envMountedUnmountFail "node1" dbOneEntry 1 "t1").response.success
        = false ∧
    findLedgerEntry
        (MountService.unmount envMountedUnmountFail "node1" dbOneEntry 1 "t1").db
        "t1" 1 "node1" = none ∧
    (MountService.unmount envMountedUnmountFail "node1" dbOneEntry 1 "t1").db.ledgers
        = [{ id := 1, backup_target_id := "t1", jobid := 1, host := "node1",
             mounted := true, deleted := true }] := by
  exact ⟨rfl, rfl, rfl⟩

/-- C3 amended: when the active count reaches 0 after the soft-delete and
the driver Unmount call fails, `MountService.unmount` returns a failure
result, but the soft-delete was committed before the driver call, so the
rollback does not restore the entry: the final database is exactly the
post-soft-delete state. -/
theorem unmount_failure_softdelete_persists (env : MountEnv) (node_id : String)
    (db : DB) (job_id : Nat) (target_id : String) (l : LedgerEntry)
    (t : BackupTarget) (ex : DmsExc) (cs : List DriverCall)
    (hrow : findLedgerEntry db target_id job_id node_id = some l)
    (hcnt : computeActiveCount (softDeleteEntry db l.id) node_id target_id = 0)
    (ht : findTargetById (softDeleteEntry db l.id) target_id = some t)
    (hmnt : serviceIsMounted env t = true)
    (hpu : performUnmount env t = (Except.error ex, cs)) :
    (MountService.unmount env node_id db job_id target_id).response.success
        = false ∧
    (MountService.unmount env node_id db job_id target_id).db
        = softDeleteEntry db l.id := by
  have hdel : unmountSoftDeletedDb db node_id job_id target_id
      = softDeleteEntry db l.id := by
    unfold unmountSoftDeletedDb
    rw [hrow]
  have hbranch :
      MountService.unmount env node_id db job_id target_id =
        { response := { success := false, message := excText ex,
                        mount_path := none },
          db := softDeleteEntry db l.id, calls := cs } := by
    unfold MountService.unmount
    rw [hdel]
    simp only [hcnt, beq_self_eq_true, if_true, ht, hmnt, hpu]
  rw [hbranch]
  exact ⟨rfl, rfl⟩

/-- Witness for the amended C3 at the concrete counterexample input. -/
theorem unmount_failure_softdelete_persists_witness :
    (MountService.unmount envMountedUnmountFail "node1" dbOneEntry 1 "t1").response.success
        = false ∧
    (MountService.unmount envMountedUnmountFail "node1" dbOneEntry 1 "t1").db
        = softDeleteEntry dbOneEntry 1 :=
  unmount_failure_softdelete_persists envMountedUnmountFail "node1" dbOneEntry
    1 "t1"
    { id := 1, backup_target_id := "t1", jobid := 1, host := "node1",
      mounted := true, deleted := false }
    tgt1 (DmsExc.unmountException "Failed to unmount t1")
    [DriverCall.unmountCall "t1"] rfl rfl rfl rfl rfl

/-- C2 counterexample: target `t1`, job 1 RUNNING, empty ledger, but the
driver already reports the path mounted.  The mount request takes the
ActiveJobCount for (t1, node1) from 0 to 1, yet no physical driver mount is
performed — the code additionally requires `not is_mounted`, so the
"physical mount iff 0 to 1 transition" biconditional fails. -/
theorem driver_gating_cex :
    computeActiveCount dbOneJob "node1" "t1" = 0 ∧
    computeActiveCount (MountService.mount envMounted "node1" dbOneJob 1 "t1" "tok").db
        "node1" "t1" = 1 ∧
    (MountService.mount envMounted "node1" dbOneJob 1 "t1" "tok").calls = [] ∧
    (MountService.mount envMounted "node1" dbOneJob 1 "t1" "tok").response.success
        = true := by
  exact ⟨rfl, rfl, rfl, rfl⟩

/-- C2 amended: for an existing NFS target, the physical driver mount is
performed iff the active count computed after the insert equals 1 and the
driver does not report the target as already mounted; the physical driver
unmount is performed iff the active count computed after the soft-delete
equals 0, the target row exists, and the driver reports the target mounted.
The pre-state count is never consulted, so the driver can fire on
transitions other than 0 to 1 / 1 to 0 and can stay silent on them. -/
theorem driver_gating_conditions :
    (∀ (env : MountEnv) (node_id : String) (db : DB) (job_id : Nat)
        (target_id keystone_token : String) (t : BackupTarget),
        findTarget db target_id = some t →
        t.type = "nfs" →
        findLedgerEntry db target_id job_id node_id = none →
        (MountService.mount env node_id db job_id target_id keystone_token).calls =
          (if computeActiveCount (mountInsertedDb db target_id job_id node_id)
                node_id target_id == 1 && !(serviceIsMounted env t)
           then [DriverCall.mountCall t.id] else [])) ∧
    (∀ (env : MountEnv) (node_id : String) (db : DB) (job_id : Nat)
        (target_id : String) (t : BackupTarget),
        findTargetById (unmountSoftDeletedDb db node_id job_id target_id)
            target_id = some t →
        t.type = "nfs" →
        (MountService.unmount env node_id db job_id target_id).calls =
          (if computeActiveCount (unmountSoftDeletedDb db node_id job_id target_id)
                node_id target_id == 0 && serviceIsMounted env t
           then [DriverCall.unmountCall t.id] else [])) := by
  constructor
  · intro env node_id db job_id target_id keystone_token t ht hnfs hnone
    unfold MountService.mount
    rw [ht, hnone]
    simp only []
    have hpm : performMount env t keystone_token =
        ((if env.driver_mount_ok t.id then Except.ok ()
          else Except.error (DmsExc.mountException ("Failed to mount " ++ t.id))),
         [DriverCall.mountCall t.id]) := by
      unfold performMount
      rw [hnfs]
      simp
    by_cases hc : (computeActiveCount (mountInsertedDb db target_id job_id node_id)
        node_id target_id == 1 && !(serviceIsMounted env t)) = true
    · rw [if_pos hc, if_pos hc]
      rw [hpm]
      by_cases hd : env.driver_mount_ok t.id
      · simp [hd]
      · simp [hd]
    · rw [if_neg hc, if_neg hc]
      split <;> rfl
  · intro env node_id db job_id target_id t ht hnfs
    unfold MountService.unmount
    simp only []
    have hpu : performUnmount env t =
        ((if env.driver_unmount_ok t.id then Except.ok ()
          else Except.error (DmsExc.unmountException ("Failed to unmount " ++ t.id))),
         [DriverCall.unmountCall t.id]) := by
      unfold performUnmount
      rw [hnfs]
      simp
    by_cases hc : (computeActiveCount (unmountSoftDeletedDb db node_id job_id target_id)
        node_id target_id == 0) = true
    · rw [if_pos hc]
      rw [ht]
      simp only []
      by_cases hm : serviceIsMounted env t = true
      · rw [if_pos hm]
        rw [hpu]
        have : (computeActiveCount (unmountSoftDeletedDb db node_id job_id target_id)
            node_id target_id == 0 && serviceIsMounted env t) = true := by
          rw [hc, hm]
          rfl
        rw [if_pos this]
        by_cases hd : env.driver_unmount_ok t.id
        · simp [hd]
        · simp [hd]
      · rw [if_neg hm]
        have : ¬ ((computeActiveCount (unmountSoftDeletedDb db node_id job_id target_id)
            node_id target_id == 0 && serviceIsMounted env t) = true) := by
          simp only [Bool.and_eq_true]
          intro hand
          exact hm hand.2
        rw [if_neg this]
    · rw [if_neg hc]
      have : ¬ ((computeActiveCount (unmountSoftDeletedDb db node_id job_id target_id)
          node_id target_id == 0 && serviceIsMounted env t) = true) := by
        simp only [Bool.and_eq_true]
        intro hand
        exact hc hand.1
      rw [if_neg this]

/-- Witness for the amended C2: concrete instantiation of both directions
(a mount that fires the driver, and an unmount that stays silent because the
driver does not report the target mounted). -/
theorem driver_gating_conditions_witness :
    (MountService.mount envDrvOk "node1" dbOneJob 1 "t1" "tok").calls =
      (if computeActiveCount (mountInsertedDb dbOneJob "t1" 1 "node1")
            "node1" "t1" == 1 && !(serviceIsMounted envDrvOk tgt1)
       then [DriverCall.mountCall tgt1.id] else []) ∧
    (MountService.unmount envDrvOk "node1" dbOneEntry 1 "t1").calls =
      (if computeActiveCount (unmountSoftDeletedDb dbOneEntry "node1" 1 "t1")
            "node1" "t1" == 0 && serviceIsMounted envDrvOk tgt1
       then [DriverCall.unmountCall tgt1.id] else []) :=
  ⟨driver_gating_conditions.1 envDrvOk "node1" dbOneJob 1 "t1" "tok" tgt1
      rfl rfl rfl,
   driver_gating_conditions.2 envDrvOk "node1" dbOneEntry 1 "t1" tgt1 rfl rfl⟩

/-- C6 counterexample: two consecutive `Mount(1, t1)` calls on node1.  Both
succeed, but the responses are not identical up to elapsed time (no elapsed
field exists at all): the first says "Mount ready for job 1", the repeat
says "Mount already exists for job 1", and no reusedExisting field is
present in the reply dict. -/
theorem mount_repeat_response_cex :
    (MountService.mount envDrvOk "node1" dbOneJob 1 "t1" "tok").response ≠
      (MountService.mount envDrvOk "node1"
          (MountService.mount envDrvOk "node1" dbOneJob 1 "t1" "tok").db
          1 "t1" "tok").response ∧
    (MountService.mount envDrvOk "node1" dbOneJob 1 "t1" "tok").response.message
        = "Mount ready for job 1" ∧
    (MountService.mount envDrvOk "node1"
        (MountService.mount envDrvOk "node1" dbOneJob 1 "t1" "tok").db
        1 "t1" "tok").response.message = "Mount already exists for job 1" := by
  refine ⟨?_, rfl, rfl⟩
  intro hcontra
  have : "Mount ready for job 1" = "Mount already exists for job 1" := by
    have h1 : (MountService.mount envDrvOk "node1" dbOneJob 1 "t1" "tok").response.message
        = "Mount ready for job 1" := rfl
    have h2 : (MountService.mount envDrvOk "node1"
        (MountService.mount envDrvOk "node1" dbOneJob 1 "t1" "tok").db
        1 "t1" "tok").response.message = "Mount already exists for job 1" := rfl
    rw [← h1, ← h2, hcontra]
  exact absurd this (by decide)

/-- C6 amended: a repeated `Mount(J, T)` for an existing target responds
success with the message "Mount already exists for job J" and the target
mount path, changes nothing and performs no driver call; across the two
calls at most one physical driver mount occurs.  The two responses differ in
the message field, and the reply dict carries no reusedExisting flag. -/
theorem mount_repeat_reuses (env : MountEnv) (node_id : String) (db : DB)
    (job_id : Nat) (target_id keystone_token : String) (t : BackupTarget)
    (ht : findTarget db target_id = some t) :
    (MountService.mount env node_id
        (MountService.mount env node_id db job_id target_id keystone_token).db
        job_id target_id keystone_token).response =
      { success := true,
        message := "Mount already exists for job " ++ toString job_id,
        mount_path := some t.filesystem_export_mount_path } ∧
    (MountService.mount env node_id
        (MountService.mount env node_id db job_id target_id keystone_token).db
        job_id target_id keystone_token).db =
      (MountService.mount env node_id db job_id target_id keystone_token).db ∧
    (MountService.mount env node_id
        (MountService.mount env node_id db job_id target_id keystone_token).db
        job_id target_id keystone_token).calls = [] ∧
    (MountService.mount env node_id db job_id target_id keystone_token).calls.length +
      (MountService.mount env node_id
          (MountService.mount env node_id db job_id target_id keystone_token).db
          job_id target_id keystone_token).calls.length ≤ 1 := by
  have ht2 : findTarget
      (MountService.mount env node_id db job_id target_id keystone_token).db
      target_id = some t := by
    rw [findTarget_congr
      (mount_targets_eq env node_id db job_id target_id keystone_token) target_id]
    exact ht
  obtain ⟨e, he⟩ := mount_leaves_row env node_id db job_id target_id
    keystone_token t ht
  have hsecond :
      MountService.mount env node_id
          (MountService.mount env node_id db job_id target_id keystone_token).db
          job_id target_id keystone_token =
        { response :=
            { success := true,
              message := "Mount already exists for job " ++ toString job_id,
              mount_path := some t.filesystem_export_mount_path },
          db := (MountService.mount env node_id db job_id target_id keystone_token).db,
          calls := [] } := by
    conv_lhs => rw [MountService.mount]
    rw [ht2, he]
  rw [hsecond]
  refine ⟨rfl, rfl, rfl, ?_⟩
  simp only [List.length_nil, Nat.add_zero]
  exact mount_calls_le_one env node_id db job_id target_id keystone_token

/-- Witness for the amended C6 at a concrete input. -/
theorem mount_repeat_reuses_witness :
    (MountService.mount envDrvOk "node1"
        (MountService.mount envDrvOk "node1" dbOneJob 1 "t1" "tok").db
        1 "t1" "tok").response =
      { success := true, message := "Mount already exists for job " ++ toString 1,
        mount_path := some tgt1.filesystem_export_mount_path } ∧
    (MountService.mount envDrvOk "node1"
        (MountService.mount envDrvOk "node1" dbOneJob 1 "t1" "tok").db
        1 "t1" "tok").db =
      (MountService.mount envDrvOk "node1" dbOneJob 1 "t1" "tok").db ∧
    (MountService.mount envDrvOk "node1"
        (MountService.mount envDrvOk "node1" dbOneJob 1 "t1" "tok").db
        1 "t1" "tok").calls = [] ∧
    (MountService.mount envDrvOk "node1" dbOneJob 1 "t1" "tok").calls.length +
      (MountService.mount envDrvOk "node1"
          (MountService.mount envDrvOk "node1" dbOneJob 1 "t1" "tok").db
          1 "t1" "tok").calls.length ≤ 1 :=
  mount_repeat_reuses envDrvOk "node1" dbOneJob 1 "t1" "tok" tgt1 rfl

/-- C7 counterexample: no ledger entry exists for job 42 on target t1, the
only entry belongs to the finished job 7, and the driver reports t1 mounted.
`Unmount(42, t1)` responds success — but it physically unmounts the target
and rewrites the ledger (job 7's row loses its mounted flag), and the reply
message is the generic "Unmount processed for job 42" rather than a
"no active mount for this job" indication. -/
theorem unmount_noop_cex :
    findLedgerEntry dbDoneJob "t1" 42 "node1" = none ∧
    (MountService.unmount envMounted "node1" dbDoneJob 42 "t1").response =
      { success := true, message := "Unmount processed for job 42",
        mount_path := none } ∧
    (MountService.unmount envMounted "node1" dbDoneJob 42 "t1").calls =
      [DriverCall.unmountCall "t1"] ∧
    (MountService.unmount envMounted "node1" dbDoneJob 42 "t1").db ≠ dbDoneJob := by
  refine ⟨rfl, rfl, rfl, ?_⟩
  intro hcontra
  have hl : (MountService.unmount envMounted "node1" dbDoneJob 42 "t1").db.ledgers
      = [{ id := 1, backup_target_id := "t1", jobid := 7, host := "node1",
           mounted := false, deleted := false }] := rfl
  rw [hcontra] at hl
  exact absurd hl (by decide)

/-- C7 amended: `Unmount(J, T)` with no non-deleted entry for (J, T, node)
performs no soft-delete, and when the physical-unmount condition does not
hold (active count nonzero, or no target row, or the driver does not report
it mounted) it is a pure success no-op with the generic message
"Unmount processed for job J".  But when the target's active count is 0,
the target row exists and the driver reports it mounted, the request
additionally performs a physical driver unmount: on success it clears the
mounted flag on all of the target's rows, and on driver failure it returns a
failure result. -/
theorem unmount_missing_entry_behavior (env : MountEnv) (node_id : String)
    (db : DB) (job_id : Nat) (target_id : String)
    (hnone : findLedgerEntry db target_id job_id node_id = none) :
    (¬ (computeActiveCount db node_id target_id = 0 ∧
          ∃ t, findTargetById db target_id = some t ∧
            serviceIsMounted env t = true) →
      MountService.unmount env node_id db job_id target_id =
        { response :=
            { success := true,
              message := "Unmount processed for job " ++ toString job_id,
              mount_path := none },
          db := db, calls := [] }) ∧
    (∀ t : BackupTarget,
      computeActiveCount db node_id target_id = 0 →
      findTargetById db target_id = some t →
      serviceIsMounted env t = true →
      ((performUnmount env t).1 = Except.ok () →
        MountService.unmount env node_id db job_id target_id =
          { response :=
              { success := true,
                message := "Unmount processed for job " ++ toString job_id,
                mount_path := none },
            db := setMountedAll db target_id node_id false,
            calls := (performUnmount env t).2 }) ∧
      (∀ ex : DmsExc, (performUnmount env t).1 = Except.error ex →
        MountService.unmount env node_id db job_id target_id =
          { response :=
              { success := false, message := excText ex,
                mount_path := none },
            db := db, calls := (performUnmount env t).2 })) := by
  have hdel : unmountSoftDeletedDb db node_id job_id target_id = db := by
    unfold unmountSoftDeletedDb
    rw [hnone]
  constructor
  · intro hno
    unfold MountService.unmount
    rw [hdel]
    by_cases hc : (computeActiveCount db node_id target_id == 0) = true
    · rw [if_pos hc]
      have hc0 : computeActiveCount db node_id target_id = 0 := by
        exact beq_iff_eq.mp hc

      cases hT : findTargetById db target_id with
      | none => rfl
      | some t =>
          simp only []
          have hm : ¬ (serviceIsMounted env t = true) := by
            intro hmt
            exact hno ⟨hc0, t, hT, hmt⟩
          rw [if_neg hm]
    · rw [if_neg hc]
  · intro t hc0 hT hm
    have hc : (computeActiveCount db node_id target_id == 0) = true := by
      rw [hc0]
      rfl
    constructor
    · intro hok
      rcases hpu : performUnmount env t with ⟨pr, cs⟩
      rw [hpu] at hok
      simp only at hok
      subst hok
      unfold MountService.unmount
      rw [hdel, if_pos hc, hT]
      simp only [hm, if_true, hpu]
    · intro ex herr
      rcases hpu : performUnmount env t with ⟨pr, cs⟩
      rw [hpu] at herr
      simp only at herr
      subst herr
      unfold MountService.unmount
      rw [hdel, if_pos hc, hT]
      simp only [hm, if_true, hpu]

/-- Witness for the amended C7: a concrete no-op case (no entry for job 42,
active count 0 but the driver does not report t1 mounted). -/
theorem unmount_missing_entry_behavior_witness :
    MountService.unmount envDrvOk "node1" dbDoneJob 42 "t1" =
      { response :=
          { success := true,
            message := "Unmount processed for job " ++ toString 42,
            mount_path := none },
        db := dbDoneJob, calls := [] } :=
  (unmount_missing_entry_behavior envDrvOk "node1" dbDoneJob 42 "t1" rfl).1
    (by
      intro hcontra
      obtain ⟨-, t, hT, hm⟩ := hcontra
      have htgt : t = tgt1 := by
        have : some t = some tgt1 := by rw [← hT]; rfl
        exact Option.some.inj this
      rw [htgt] at hm
      exact absurd hm (by decide))

/-- C9 counterexample: `/mnt/t1` is present in /proc/mounts, plain and lazy
umount would exit 1 and force-lazy umount would exit 0.  The claimed
escalation would try all three and succeed; instead `NFSDriver.unmount`
returns success without starting any umount command (because `is_mounted`
is always False), and even the escalation code itself, run directly, stops
after plain and lazy and returns failure without ever trying the force-lazy
command that would have succeeded. -/
theorem nfs_unmount_escalation_cex :
    (nfsCexEnv.procMounts.any fun parts =>
        decide (2 ≤ parts.length) && (parts.getD 1 "" == "/mnt/t1")) = true ∧
    NFSDriver.unmount nfsCexEnv "t1" "/mnt/t1" = (true, []) ∧
    nfsUnmountEscalation nfsCexEnv "/mnt/t1" =
      (false, [["umount", "/mnt/t1"], ["umount", "-l", "/mnt/t1"]]) ∧
    nfsCexEnv.run ["umount", "-f", "-l", "/mnt/t1"] = CmdResult.completed 0 := by
  exact ⟨rfl, rfl, rfl, rfl⟩

/-- C9 amended: `NFSDriver.unmount` returns success with no umount command
whenever `is_mounted` reports False (which, per the `signal` import bug, is
always the case); its escalation code tries the plain and then the lazy
umount and, when both commands complete without timing out, succeeds iff one
of them exits 0 — the force-lazy umount is never among the commands started
in that case; it is reached only through the TimeoutExpired handler. -/
theorem nfs_unmount_escalation_behavior :
    (∀ (env : OsEnv) (target_id mount_path : String),
        NFSDriver.is_mounted env mount_path = false →
        NFSDriver.unmount env target_id mount_path = (true, [])) ∧
    (∀ (env : OsEnv) (mount_path : String) (rc1 rc2 : Int),
        env.run ["umount", mount_path] = CmdResult.completed rc1 →
        env.run ["umount", "-l", mount_path] = CmdResult.completed rc2 →
        ((nfsUnmountEscalation env mount_path).1 = true ↔ rc1 = 0 ∨ rc2 = 0) ∧
        ["umount", "-f", "-l", mount_path] ∉ (nfsUnmountEscalation env mount_path).2) := by
  constructor
  · intro env target_id mount_path h
    unfold NFSDriver.unmount
    rw [h]
    rfl
  · intro env mount_path rc1 rc2 h1 h2
    unfold nfsUnmountEscalation
    rw [h1]
    simp only []
    by_cases hrc1 : (rc1 == 0) = true
    · have : rc1 = 0 := by exact beq_iff_eq.mp hrc1
      rw [if_pos hrc1]
      constructor
      · simp [this]
      · simp
    · rw [if_neg hrc1]
      rw [h2]
      simp only []
      have hrc1ne : ¬ (rc1 = 0) := by
        intro hc
        exact hrc1 (by rw [hc]; rfl)
      by_cases hrc2 : (rc2 == 0) = true
      · have : rc2 = 0 := by exact beq_iff_eq.mp hrc2
        rw [if_pos hrc2]
        constructor
        · simp [this]
        · simp
      · have hrc2ne : ¬ (rc2 = 0) := by
          intro hc
          exact hrc2 (by rw [hc]; rfl)
        rw [if_neg hrc2]
        constructor
        · simp [hrc1ne, hrc2ne]
        · simp

/-- Witness for the amended C9 at the concrete counterexample input. -/
theorem nfs_unmount_escalation_behavior_witness :
    (NFSDriver.unmount nfsCexEnv "t1" "/mnt/t1" = (true, [])) ∧
    ((nfsUnmountEscalation nfsCexEnv "/mnt/t1").1 = true ↔
        (1 : Int) = 0 ∨ (1 : Int) = 0) ∧
    ["umount", "-f", "-l", "/mnt/t1"] ∉ (nfsUnmountEscalation nfsCexEnv "/mnt/t1").2 :=
  ⟨nfs_unmount_escalation_behavior.1 nfsCexEnv "t1" "/mnt/t1" rfl,
   (nfs_unmount_escalation_behavior.2 nfsCexEnv "/mnt/t1" 1 1 rfl rfl).1,
   (nfs_unmount_escalation_behavior.2 nfsCexEnv "/mnt/t1" 1 1 rfl rfl).2⟩
